import Mathlib

/-!
Verification of the dcn-sdk authenticated request façade
(`src/python/dcn/client.py`, with the error classes of
`src/python/dcn/errors.py` and the signing helper of
`src/python/dcn/crypto.py`).

The development is a shallow embedding of the Python code:

* `SDKState` is the mutable state of a `DcnSDK` instance
  (`_access`, `_refresh`, `_auto_refresh`, `_client`).
* `GenClient` models the generated backend handle `_GenClient(base_url,
  token, verify_ssl, timeout)`; the float timeout is carried as an opaque
  numeric value (it is pure pass-through data).
* `OpFunc` models a resolved generated-endpoint module: it may expose a
  `sync_detailed` convention, a `sync` convention, both, or neither.
  An invocation behaviour is a function of the client handle passed in,
  the keyword arguments, and the per-dispatch invocation index (0 for the
  first invocation, 1 for the single retry) — the backend is an oracle.
* `importlib.import_module` + `getattr` are the external module system;
  they are abstracted into a resolver oracle `String → ResolveOutcome`.
* Python exceptions become the `PyErr` sum type, one constructor per
  distinct failure class raised or declared by the source.
* The mutual recursion `DcnSDK._call ⇄ DcnSDK.refresh` (a 401 during the
  refresh call re-enters `refresh`) is unbounded in Python; it is embedded
  with a fuel parameter, `PyErr.outOfFuel` standing for the divergence.
-/

/-- Python truthiness of an `Optional[str]`: `None` and `""` are falsy. -/
def truthy : Option String → Bool
  | none => false
  | some s => !(s == "")

/-- The generated client handle: `_GenClient(base_url=…, token=…, verify_ssl=…, timeout=…)`. -/
structure GenClient where
  base_url : String
  token : Option String
  verify_ssl : Bool
  timeout : Nat
deriving DecidableEq, Repr

/-- Mutable state of a `DcnSDK` instance. -/
structure SDKState where
  access : Option String
  refresh : Option String
  auto_refresh : Bool
  client : GenClient
deriving DecidableEq, Repr

/-- Whether a generated response value behaves as an object (attribute
access) or as a `dict` (mapping access) — the two payload shapes the
source supports via `getattr(resp, f, None) or (resp.get(f) if isinstance(resp, dict) else None)`. -/
inductive RespShape where
  | obj
  | map
deriving DecidableEq, Repr

/-- The token/nonce fields a response payload may carry. -/
structure RespData where
  access_token : Option String
  refresh_token : Option String
  nonce : Option String
deriving DecidableEq, Repr

/-- A parsed response payload. -/
structure Resp where
  shape : RespShape
  data : RespData
deriving DecidableEq, Repr

/-- `getattr(resp, fld, None) or (resp.get(fld) if isinstance(resp, dict) else None)`:
for an object, a falsy attribute value collapses to `None`; for a dict,
`.get` returns the stored value unchanged (`None` when absent). `None`
itself (a `_call` may return `None`) yields `None`. -/
def extract_field (r : Option Resp) (fld : RespData → Option String) : Option String :=
  match r with
  | none => none
  | some resp =>
    match resp.shape with
    | .obj => if truthy (fld resp.data) then fld resp.data else none
    | .map => fld resp.data

/-- Python exceptions raised (or declared) by the source, one constructor
per distinct failure class.  `dcnAuthError` is the `DcnAuthError` class of
`errors.py`; `runtimeError` is `RuntimeError`; `importError` is the
`ImportError(f"Unable to resolve any of: {candidates}") from last_exc` of
`_resolve_func`, carrying the candidate list and the last lookup failure;
`httpStatusError` is `httpx.HTTPStatusError`; `attributeError` is the
`AttributeError` Python raises when a module lacks the accessed attribute. -/
inductive PyErr where
  | runtimeError (msg : String)
  | dcnAuthError (msg : String)
  | importError (candidates : List String) (cause : Option String)
  | httpStatusError (status : Nat) (msg : String)
  | attributeError (name : String)
  | outOfFuel
deriving DecidableEq, Repr

/-- One keyword-argument value. -/
inductive Arg where
  | str (s : String)
  | int (n : Int)
  | dict (entries : List (String × String))
deriving DecidableEq, Repr

/-- The keyword arguments of an endpoint invocation, in source order. -/
abbrev Args := List (String × Arg)

/-- A `sync_detailed` response: `status_code`, optional `parsed` payload,
raw `content`. -/
structure DetailedResp where
  status_code : Nat
  parsed : Option Resp
  content : String
deriving DecidableEq, Repr

/-- Outcome of one `sync` (plain-convention) invocation: a parsed payload
(possibly `None`), or a raised `httpx.HTTPStatusError` carrying a status. -/
inductive PlainOutcome where
  | ok (payload : Option Resp)
  | raiseStatus (status : Nat) (msg : String)
deriving DecidableEq, Repr

/-- A resolved generated-endpoint module (`op_func`).  Each convention, when
present, is an oracle giving the response to the `n`-th invocation within
one dispatch (`n = 0` first attempt, `n = 1` the single retry), as a
function of the client handle and keyword arguments passed. -/
structure OpFunc where
  sync_detailed : Option (GenClient → Args → Nat → DetailedResp)
  sync : Option (GenClient → Args → Nat → PlainOutcome)

/-- Whether an operation exposes at least one recognised calling convention. -/
def hasConvention (op : OpFunc) : Bool :=
  op.sync_detailed.isSome || op.sync.isSome

/-- Result of trying to locate one candidate dotted path through
`importlib.import_module` + `getattr` (the external module system):
either the operation module, or the exception message recorded as `last_exc`. -/
inductive ResolveOutcome where
  | found (op : OpFunc)
  | failed (exc : String)

/-- The external collaborators of the façade: the module system used by
`_resolve_func`, and the signer (`account.sign_message`, which
`sign_login_nonce` consumes) as a function from message text to signature. -/
structure SdkEnv where
  resolve : String → ResolveOutcome
  sign : String → String

/-- `DcnSDK._set_tokens(access, refresh=None)`: if `access` is truthy, store
it and rebuild the generated client around the new token; if `refresh` is
not `None`, store it as-is. -/
def set_tokens (st : SDKState) (access refresh : Option String) : SDKState :=
  let st1 :=
    if truthy access then
      { st with
        access := access
        client :=
          { base_url := st.client.base_url
            token := access
            verify_ssl := st.client.verify_ssl
            timeout := st.client.timeout } }
    else st
  if refresh.isSome then { st1 with refresh := refresh } else st1

/-- Loop body of `DcnSDK._resolve_func`: try each candidate in order,
remembering the last lookup failure; on exhaustion raise
`ImportError(f"Unable to resolve any of: {candidates}") from last_exc`
(modelled as `PyErr.importError` carrying the original candidate list). -/
def resolve_go (resolver : String → ResolveOutcome) (orig : List String) :
    List String → Option String → Except PyErr OpFunc
  | [], lastE => .error (.importError orig lastE)
  | c :: rest, _lastE =>
    match resolver c with
    | .found op => .ok op
    | .failed e => resolve_go resolver orig rest (some e)

/-- `DcnSDK._resolve_func(candidates)`. -/
def resolve_func (resolver : String → ResolveOutcome) (cands : List String) :
    Except PyErr OpFunc :=
  resolve_go resolver cands cands none

/-- `DcnSDK._encode_ranges`: `"".join(f"({a};{b})" for a, b in ranges)`. -/
def encode_ranges (ranges : List (Int × Int)) : String :=
  String.join (ranges.map fun p => "(" ++ toString p.1 ++ ";" ++ toString p.2 ++ ")")

/-- Instrumented outcome of one `DcnSDK._call` dispatch.  Besides the
Python-observable result and state, it records: how many times this
dispatch invoked the dispatched operation (`opInv`), whether this dispatch
frame itself called `self.refresh()` (`directRefresh`), the total number of
`refresh()` activations including nested ones (`refreshTotal`), the total
number of network (operation) invocations including those made by nested
refreshes (`net`), and the total number of `_resolve_func` calls (`res`). -/
structure CallOut where
  result : Except PyErr (Option Resp)
  state : SDKState
  opInv : Nat
  directRefresh : Nat
  refreshTotal : Nat
  net : Nat
  res : Nat
deriving Repr

/-- Instrumented outcome of one `DcnSDK.refresh()` activation
(`refreshTotal` includes the activation itself). -/
structure RefreshOut where
  result : Except PyErr (Option Resp)
  state : SDKState
  refreshTotal : Nat
  net : Nat
  res : Nat
deriving Repr

/-- Instrumented outcome of a public SDK method. -/
structure MethodOut where
  result : Except PyErr (Option Resp)
  state : SDKState
  refreshTotal : Nat
  net : Nat
  res : Nat
deriving Repr

/-- The final status check of the detailed branch of `_call`:
`if 200 <= resp.status_code < 300: return resp.parsed` else
`raise RuntimeError(f"HTTP {resp.status_code}: {resp.content}")`. -/
def httpFinish (resp : DetailedResp) : Except PyErr (Option Resp) :=
  if 200 ≤ resp.status_code ∧ resp.status_code < 300 then .ok resp.parsed
  else .error (.runtimeError ("HTTP " ++ toString resp.status_code ++ ": " ++ resp.content))

/-- `DcnSDK._call(op_func, *args, **kwargs)` with `self.refresh` abstracted
into `refreshFn` (the knot is tied by `callAt` below).  Prefers
`sync_detailed`; on a 401 with auto-refresh enabled and a truthy refresh
token, refreshes once and re-invokes once with identical arguments.  The
plain branch catches only `httpx.HTTPStatusError`; an operation exposing
neither convention fails at call time with `AttributeError`. -/
def mkCall (refreshFn : SDKState → RefreshOut) (st : SDKState) (op : OpFunc)
    (args : Args) : CallOut :=
  match op.sync_detailed with
  | some f =>
    if st.auto_refresh && ((f st.client args 0).status_code == 401) && truthy st.refresh then
      let R := refreshFn st
      match R.result with
      | .error e =>
        { result := .error e, state := R.state, opInv := 1, directRefresh := 1
          refreshTotal := R.refreshTotal, net := 1 + R.net, res := R.res }
      | .ok _ =>
        { result := httpFinish (f R.state.client args 1), state := R.state, opInv := 2
          directRefresh := 1, refreshTotal := R.refreshTotal, net := 2 + R.net, res := R.res }
    else
      { result := httpFinish (f st.client args 0), state := st, opInv := 1
        directRefresh := 0, refreshTotal := 0, net := 1, res := 0 }
  | none =>
    match op.sync with
    | none =>
      { result := .error (.attributeError "sync"), state := st, opInv := 0
        directRefresh := 0, refreshTotal := 0, net := 0, res := 0 }
    | some g =>
      match g st.client args 0 with
      | .ok payload =>
        { result := .ok payload, state := st, opInv := 1, directRefresh := 0
          refreshTotal := 0, net := 1, res := 0 }
      | .raiseStatus status msg =>
        if st.auto_refresh && (status == 401) && truthy st.refresh then
          let R := refreshFn st
          match R.result with
          | .error e =>
            { result := .error e, state := R.state, opInv := 1, directRefresh := 1
              refreshTotal := R.refreshTotal, net := 1 + R.net, res := R.res }
          | .ok _ =>
            match g R.state.client args 1 with
            | .ok p =>
              { result := .ok p, state := R.state, opInv := 2, directRefresh := 1
                refreshTotal := R.refreshTotal, net := 2 + R.net, res := R.res }
            | .raiseStatus s2 m2 =>
              { result := .error (.httpStatusError s2 m2), state := R.state, opInv := 2
                directRefresh := 1, refreshTotal := R.refreshTotal, net := 2 + R.net, res := R.res }
        else
          { result := .error (.httpStatusError status msg), state := st, opInv := 1
            directRefresh := 0, refreshTotal := 0, net := 1, res := 0 }

/-- Candidate list of `DcnSDK.refresh`. -/
def refreshCandidates : List String :=
  ["dcn_sdk._gen.dcn_api_client.api.auth.post_refresh",
   "dcn_sdk._gen.dcn_api_client.api.default.post_refresh"]

/-- `DcnSDK.refresh()` with `self._call` abstracted into `callFn`:
precondition check, resolution of the refresh endpoint, the wire call with
the `X-Refresh-Token` header and empty JSON body, extraction of the new
access token (attribute or mapping access) and `self._set_tokens(new_access)`. -/
def mkRefresh (callFn : SDKState → OpFunc → Args → CallOut)
    (resolver : String → ResolveOutcome) (st : SDKState) : RefreshOut :=
  if !truthy st.access || !truthy st.refresh then
    { result := .error (.runtimeError "Missing tokens for refresh"), state := st
      refreshTotal := 1, net := 0, res := 0 }
  else
    match resolve_func resolver refreshCandidates with
    | .error e =>
      { result := .error e, state := st, refreshTotal := 1, net := 0, res := 1 }
    | .ok op =>
      let C := callFn st op
        [("headers", .dict [("X-Refresh-Token", st.refresh.getD "")]), ("json_body", .dict [])]
      match C.result with
      | .error e =>
        { result := .error e, state := C.state, refreshTotal := 1 + C.refreshTotal
          net := C.net, res := 1 + C.res }
      | .ok resp =>
        { result := .ok resp
          state := set_tokens C.state (extract_field resp fun d => d.access_token) none
          refreshTotal := 1 + C.refreshTotal, net := C.net, res := 1 + C.res }

/-- Divergence marker: a nested `refresh` with no fuel left stands for the
unbounded `_call ⇄ refresh` recursion of the Python source. -/
def refreshStub (st : SDKState) : RefreshOut :=
  { result := .error .outOfFuel, state := st, refreshTotal := 0, net := 0, res := 0 }

/-- `DcnSDK._call` with the `self.refresh` knot tied, up to `fuel` nested
refresh activations. -/
def callAt : Nat → SdkEnv → SDKState → OpFunc → Args → CallOut
  | 0, _env, st, op, args => mkCall refreshStub st op args
  | fuel + 1, env, st, op, args =>
    mkCall (mkRefresh (callAt fuel env) env.resolve) st op args

/-- `DcnSDK.refresh` with the `self._call` knot tied. -/
def refreshAt (fuel : Nat) (env : SdkEnv) : SDKState → RefreshOut :=
  mkRefresh (callAt fuel env) env.resolve

/-- A public SDK method body `fn = self._resolve_func(cands); return self._call(fn, **kwargs)`. -/
def dispatch (fuel : Nat) (env : SdkEnv) (st : SDKState) (cands : List String)
    (args : Args) : MethodOut :=
  match resolve_func env.resolve cands with
  | .error e =>
    { result := .error e, state := st, refreshTotal := 0, net := 0, res := 1 }
  | .ok op =>
    let C := callAt fuel env st op args
    { result := C.result, state := C.state, refreshTotal := C.refreshTotal
      net := C.net, res := 1 + C.res }

/-- Candidate list of `DcnSDK.get_nonce`. -/
def nonceCandidates : List String :=
  ["dcn_sdk._gen.dcn_api_client.api.auth.get_nonce",
   "dcn_sdk._gen.dcn_api_client.api.default.get_nonce"]

/-- Candidate list of the `post_auth` resolution in `DcnSDK.login_with_account`. -/
def authCandidates : List String :=
  ["dcn_sdk._gen.dcn_api_client.api.auth.post_auth",
   "dcn_sdk._gen.dcn_api_client.api.default.post_auth"]

/-- Candidate list of the with-pairs branch of `DcnSDK.execute`. -/
def execWithPairsCandidates : List String :=
  ["dcn_sdk._gen.dcn_api_client.api.execute.get_with_pairs",
   "dcn_sdk._gen.dcn_api_client.api.default.get_with_pairs"]

/-- Candidate list of the no-pairs branch of `DcnSDK.execute`. -/
def execNoPairsCandidates : List String :=
  ["dcn_sdk._gen.dcn_api_client.api.execute.get_no_pairs",
   "dcn_sdk._gen.dcn_api_client.api.default.get_no_pairs"]

/-- `crypto.sign_login_nonce(account, nonce)`: builds the fixed message
template and signs it through the external signer. -/
def sign_login_nonce (sign : String → String) (nonce : String) : String × String :=
  ("Login nonce: " ++ nonce, sign ("Login nonce: " ++ nonce))

/-- Abstract rendering of Python `repr` for the response payloads, used
only inside the nonce-missing error message. -/
def pyRepr : Option Resp → String
  | none => "None"
  | some r =>
    match r.shape with
    | .obj => "<object>"
    | .map => "<dict>"

/-- `DcnSDK.get_nonce(address)`. -/
def get_nonce (fuel : Nat) (env : SdkEnv) (st : SDKState) (address : String) : MethodOut :=
  dispatch fuel env st nonceCandidates [("address", .str address)]

/-- `DcnSDK.login_with_account(account)`: nonce → sign → `POST /auth` →
extract `access_token`/`refresh_token` (attribute or mapping access) →
`self._set_tokens(access, refresh)` → return the raw response. -/
def login_with_account (fuel : Nat) (env : SdkEnv) (st : SDKState)
    (address : String) : MethodOut :=
  let N := get_nonce fuel env st address
  match N.result with
  | .error e =>
    { result := .error e, state := N.state, refreshTotal := N.refreshTotal
      net := N.net, res := N.res }
  | .ok nresp =>
    let nonce := extract_field nresp fun d => d.nonce
    if truthy nonce = false then
      { result := .error (.runtimeError ("Nonce response missing 'nonce': " ++ pyRepr nresp))
        state := N.state, refreshTotal := N.refreshTotal, net := N.net, res := N.res }
    else
      let ms := sign_login_nonce env.sign (nonce.getD "")
      let A := dispatch fuel env N.state authCandidates
        [("json_body", .dict [("address", address), ("message", ms.1), ("signature", ms.2)])]
      match A.result with
      | .error e =>
        { result := .error e, state := A.state
          refreshTotal := N.refreshTotal + A.refreshTotal
          net := N.net + A.net, res := N.res + A.res }
      | .ok resp =>
        { result := .ok resp
          state := set_tokens A.state (extract_field resp fun d => d.access_token)
            (extract_field resp fun d => d.refresh_token)
          refreshTotal := N.refreshTotal + A.refreshTotal
          net := N.net + A.net, res := N.res + A.res }

/-- Python truthiness of the `ranges` argument of `execute`: `None` and the
empty list are falsy. -/
def rangesTruthy : Option (List (Int × Int)) → Bool
  | none => false
  | some l => !l.isEmpty

/-- `DcnSDK.execute(feature_name, num_samples, ranges=None)`. -/
def execute (fuel : Nat) (env : SdkEnv) (st : SDKState) (feature_name : String)
    (num_samples : Int) (ranges : Option (List (Int × Int))) : MethodOut :=
  if rangesTruthy ranges then
    dispatch fuel env st execWithPairsCandidates
      [("feature_name", .str feature_name), ("num_samples", .int num_samples),
       ("pairs", .str (encode_ranges (ranges.getD [])))]
  else
    dispatch fuel env st execNoPairsCandidates
      [("feature_name", .str feature_name), ("num_samples", .int num_samples)]

/-!  ## Shared helper lemmas and concrete fixtures  -/

/-- A base anonymous generated-client handle used by concrete fixtures. -/
def clientD : GenClient :=
  { base_url := "https://api.decentralised.art", token := none, verify_ssl := true, timeout := 15 }

/-- An environment in which no operation module can be located. -/
def envEmpty : SdkEnv :=
  { resolve := fun _ => .failed "No module named 'dcn_sdk'", sign := fun _ => "" }

lemma string_foldl_append (l : List String) :
    ∀ a : String, l.foldl (· ++ ·) a = a ++ l.foldl (· ++ ·) "" := by
  induction l with
  | nil => intro a; simp [List.foldl]
  | cons s t ih =>
    intro a
    simp only [List.foldl]
    rw [ih (a ++ s), ih ("" ++ s), String.empty_append, String.append_assoc]

lemma join_cons (s : String) (l : List String) :
    String.join (s :: l) = s ++ String.join l := by
  simp only [String.join, List.foldl]
  rw [string_foldl_append l ("" ++ s), String.empty_append]

/-!  ## C5 — Range Encoder  -/

/-- Claim C5: for every sequence of integer pairs (including negative
integers), `_encode_ranges` returns the concatenation of the pairs each
rendered as `(start;shift)` with no separators or wrapping; the empty
sequence renders as the empty string; the function is a total pass-through
formatter (no validation rejects any pair). -/
theorem encode_ranges_spec :
    encode_ranges [] = "" ∧
    (∀ (a b : Int) (rest : List (Int × Int)),
      encode_ranges ((a, b) :: rest) =
        "(" ++ toString a ++ ";" ++ toString b ++ ")" ++ encode_ranges rest) ∧
    encode_ranges [(1, 2), (3, 4)] = "(1;2)(3;4)" ∧
    encode_ranges [(-1, -2), (0, -7)] = "(-1;-2)(0;-7)" := by
  refine ⟨rfl, ?_, rfl, rfl⟩
  intro a b rest
  unfold encode_ranges
  simp only [List.map_cons]
  exact join_cons _ _

/-!  ## C6 — Token Lifecycle Manager: `_set_tokens`  -/

/-- Claim C6: `_set_tokens(access, refresh)` with a non-empty access value
stores the access token and rebuilds the generated client as a fresh handle
bound to that token (same base URL, TLS setting and timeout as the old
handle); the refresh token is stored as-is exactly when the refresh
argument is given (including an explicit empty string) and is left
unchanged when it is omitted (`None`). -/
theorem set_tokens_spec (st : SDKState) (a : String) (r : Option String) (ha : a ≠ "") :
    (set_tokens st (some a) r).access = some a ∧
    (set_tokens st (some a) r).client =
      { base_url := st.client.base_url, token := some a,
        verify_ssl := st.client.verify_ssl, timeout := st.client.timeout } ∧
    (∀ v, r = some v → (set_tokens st (some a) r).refresh = some v) ∧
    (r = none → (set_tokens st (some a) r).refresh = st.refresh) := by
  have ht : truthy (some a) = true := by simp [truthy, ha]
  cases r with
  | none => simp [set_tokens, ht]
  | some v => simp [set_tokens, ht]

/-- Fixture state for the C6 witness. -/
def stW6 : SDKState :=
  { access := none, refresh := none, auto_refresh := true, client := clientD }

theorem set_tokens_spec_witness :
    (set_tokens stW6 (some "A") (some "R")).access = some "A" ∧
    (set_tokens stW6 (some "A") (some "R")).refresh = some "R" ∧
    (set_tokens stW6 (some "A") (some "R")).client.token = some "A" := by
  have h := set_tokens_spec stW6 "A" (some "R") (by decide)
  refine ⟨h.1, h.2.2.1 "R" rfl, ?_⟩
  rw [h.2.1]

/-!  ## C2 — Refresh precondition  -/

/-- Claim C2: whenever the access token or the refresh token (or both) is
absent, `refresh()` fails immediately with the missing-tokens failure the
spec taxonomy calls AuthError — in the source a
`RuntimeError("Missing tokens for refresh")` — making zero network calls
and zero operation resolutions, and leaving the whole client state
(both tokens and the backend handle) unchanged. -/
theorem refresh_missing_tokens (fuel : Nat) (env : SdkEnv) (st : SDKState)
    (h : st.access = none ∨ st.refresh = none) :
    refreshAt fuel env st =
      { result := .error (.runtimeError "Missing tokens for refresh"),
        state := st, refreshTotal := 1, net := 0, res := 0 } := by
  have hc : (!truthy st.access || !truthy st.refresh) = true := by
    rcases h with h | h <;> simp [h, truthy]
  unfold refreshAt mkRefresh
  rw [hc]
  simp

theorem refresh_missing_tokens_witness :
    refreshAt 1 envEmpty stW6 =
      { result := .error (.runtimeError "Missing tokens for refresh"),
        state := stW6, refreshTotal := 1, net := 0, res := 0 } :=
  refresh_missing_tokens 1 envEmpty stW6 (Or.inl rfl)

/-!  ## C9 — `execute` with an empty ranges list  -/

/-- Claim C9: `execute(feature_name, num_samples, [])` behaves identically
to `execute(feature_name, num_samples)` with the ranges argument omitted:
both resolve the no-pairs operation candidates and invoke the resolved
operation with only `feature_name` and `num_samples` — no `pairs`
parameter is encoded or sent. -/
theorem execute_empty_ranges_eq_none (fuel : Nat) (env : SdkEnv) (st : SDKState)
    (fname : String) (n : Int) :
    execute fuel env st fname n (some []) = execute fuel env st fname n none ∧
    execute fuel env st fname n (some []) =
      dispatch fuel env st execNoPairsCandidates
        [("feature_name", Arg.str fname), ("num_samples", Arg.int n)] :=
  ⟨rfl, rfl⟩

/-!  ## C4 — Operation Resolver  -/

/-- Modelled from the spec's description of the resolver: the first
candidate that can be located at all.  Used only to compare the source
algorithm against the claim's declarative reading. -/
def spec_firstFound (resolver : String → ResolveOutcome) : List String → Option OpFunc
  | [] => none
  | c :: rest =>
    match resolver c with
    | .found op => some op
    | .failed _ => spec_firstFound resolver rest

/-- Modelled from the spec's description of the resolver: the last
underlying lookup failure over a candidate list. -/
def spec_lastFailure (resolver : String → ResolveOutcome) :
    List String → Option String → Option String
  | [], acc => acc
  | c :: rest, acc =>
    match resolver c with
    | .found _ => spec_lastFailure resolver rest acc
    | .failed e => spec_lastFailure resolver rest (some e)

lemma resolve_go_spec (resolver : String → ResolveOutcome) (orig : List String) :
    ∀ (rest : List String) (acc : Option String),
      resolve_go resolver orig rest acc =
        match spec_firstFound resolver rest with
        | some op => Except.ok op
        | none => Except.error (.importError orig (spec_lastFailure resolver rest acc)) := by
  intro rest
  induction rest with
  | nil => intro acc; rfl
  | cons c rest ih =>
    intro acc
    cases h : resolver c with
    | found op => simp [resolve_go, spec_firstFound, h]
    | failed e => simp [resolve_go, spec_firstFound, spec_lastFailure, h, ih]

/-- An operation module exposing neither recognised calling convention. -/
def opNoConv : OpFunc := { sync_detailed := none, sync := none }

/-- Resolver fixture for the C4 counterexample: the single candidate is
locatable but the located module exposes neither calling convention. -/
def resC4 : String → ResolveOutcome := fun c =>
  if c = "dcn_sdk._gen.dcn_api_client.api.version.get_version" then .found opNoConv
  else .failed "No module named 'dcn_sdk'"

/-- Claim C4 counterexample: `_resolve_func` accepts (returns) a candidate
that exposes neither of the two recognised calling conventions, refuting
"accepts a candidate only if it exposes at least one of the two recognized
calling conventions". -/
theorem resolve_accepts_conventionless_cex :
    resolve_func resC4 ["dcn_sdk._gen.dcn_api_client.api.version.get_version"] =
      .ok opNoConv ∧
    hasConvention opNoConv = false :=
  ⟨rfl, rfl⟩

/-- Claim C4 (amended): `_resolve_func` iterates the candidates in order,
skips (without aborting) every candidate that cannot be located, returns
the binding of the first candidate that can be located — regardless of
which calling conventions it exposes — and when no candidate can be
located fails with the `ImportError` (the spec's ResolutionError) carrying
the full candidate list and the last underlying lookup failure. -/
theorem resolve_first_located_refinement (resolver : String → ResolveOutcome)
    (cands : List String) :
    resolve_func resolver cands =
      match spec_firstFound resolver cands with
      | some op => Except.ok op
      | none => Except.error (.importError cands (spec_lastFailure resolver cands none)) :=
  resolve_go_spec resolver cands cands none

/-!  ## Dispatcher / refresh helper lemmas  -/

lemma callAt_succ (fuel : Nat) (env : SdkEnv) (st : SDKState) (op : OpFunc) (args : Args) :
    callAt (fuel + 1) env st op args = mkCall (refreshAt fuel env) st op args := rfl

/-- A plain-convention operation whose behaviour is a constant successful
payload dispatches in one invocation with no state change. -/
lemma callAt_plain_ok (fuel : Nat) (env : SdkEnv) (st : SDKState) (p : Option Resp)
    (args : Args) :
    callAt fuel env st { sync_detailed := none, sync := some fun _ _ _ => .ok p } args =
      { result := .ok p, state := st, opInv := 1, directRefresh := 0
        refreshTotal := 0, net := 1, res := 0 } := by
  cases fuel <;> rfl

lemma resolve_func_head_found (resolver : String → ResolveOutcome) (c : String)
    (rest : List String) (op : OpFunc) (h : resolver c = .found op) :
    resolve_func resolver (c :: rest) = .ok op := by
  unfold resolve_func resolve_go
  rw [h]

lemma dispatch_plain_ok (fuel : Nat) (env : SdkEnv) (st : SDKState) (c : String)
    (rest : List String) (p : Option Resp) (args : Args)
    (h : env.resolve c = .found { sync_detailed := none, sync := some fun _ _ _ => .ok p }) :
    dispatch fuel env st (c :: rest) args =
      { result := .ok p, state := st, refreshTotal := 0, net := 1, res := 1 } := by
  unfold dispatch
  rw [resolve_func_head_found _ _ _ _ h]
  simp [callAt_plain_ok]

lemma set_tokens_refresh_eq (st : SDKState) (a : Option String) :
    (set_tokens st a none).refresh = st.refresh := by
  simp only [set_tokens]
  cases h : truthy a <;> simp

/-- `_call` never writes the refresh token itself: any change to it comes
from the injected refresh action. -/
lemma mkCall_state_refresh (rf : SDKState → RefreshOut) (st : SDKState) (op : OpFunc)
    (args : Args) (h : ∀ s, (rf s).state.refresh = s.refresh) :
    (mkCall rf st op args).state.refresh = st.refresh := by
  simp only [mkCall]
  repeat' split
  all_goals simp [h]

/-- `refresh()` commits only the access token (`set_tokens(new_access)`
with the refresh argument omitted), so it never changes the stored refresh
token, whatever its inner call does. -/
lemma mkRefresh_state_refresh (cf : SDKState → OpFunc → Args → CallOut)
    (resolver : String → ResolveOutcome) (st : SDKState)
    (h : ∀ s op args, (cf s op args).state.refresh = s.refresh) :
    (mkRefresh cf resolver st).state.refresh = st.refresh := by
  simp only [mkRefresh]
  repeat' split
  all_goals simp [h, set_tokens_refresh_eq]

lemma callAt_state_refresh :
    ∀ (fuel : Nat) (env : SdkEnv) (st : SDKState) (op : OpFunc) (args : Args),
      (callAt fuel env st op args).state.refresh = st.refresh := by
  intro fuel
  induction fuel with
  | zero =>
    intro env st op args
    exact mkCall_state_refresh _ _ _ _ fun s => rfl
  | succ n ih =>
    intro env st op args
    exact mkCall_state_refresh _ _ _ _ fun s =>
      mkRefresh_state_refresh _ _ _ fun s' op' args' => ih env s' op' args'

lemma refreshAt_state_refresh (fuel : Nat) (env : SdkEnv) (st : SDKState) :
    (refreshAt fuel env st).state.refresh = st.refresh :=
  mkRefresh_state_refresh _ _ _ fun s op args => callAt_state_refresh fuel env s op args

/-- Computation of `refresh()` against a well-behaved refresh endpoint: both
tokens present, the first refresh candidate resolves to a plain-convention
operation answering with a fixed successful payload. -/
lemma refresh_benign (fuel : Nat) (env : SdkEnv) (st : SDKState) (rResp : Option Resp)
    (hacc : truthy st.access = true) (href : truthy st.refresh = true)
    (hres : env.resolve "dcn_sdk._gen.dcn_api_client.api.auth.post_refresh" =
      .found { sync_detailed := none, sync := some fun _ _ _ => .ok rResp }) :
    refreshAt fuel env st =
      { result := .ok rResp
        state := set_tokens st (extract_field rResp fun d => d.access_token) none
        refreshTotal := 1, net := 1, res := 1 } := by
  have hr : resolve_func env.resolve refreshCandidates =
      .ok { sync_detailed := none, sync := some fun _ _ _ => .ok rResp } := by
    unfold refreshCandidates
    exact resolve_func_head_found _ _ _ _ hres
  simp only [refreshAt, mkRefresh, hacc, href, Bool.not_true, Bool.or_self]
  rw [hr]
  simp [callAt_plain_ok]

/-- One `_call` dispatch never invokes its operation more than twice and
never calls `self.refresh()` more than once. -/
lemma mkCall_bounds (rf : SDKState → RefreshOut) (st : SDKState) (op : OpFunc)
    (args : Args) :
    (mkCall rf st op args).opInv ≤ 2 ∧ (mkCall rf st op args).directRefresh ≤ 1 := by
  simp only [mkCall]
  repeat' split
  all_goals simp

/-!  ## C7 — 401 without refresh capability  -/

/-- Claim C7: a dispatched call whose first invocation fails with status 401
while no refresh token is set (or auto-refresh is disabled) performs zero
refresh invocations and zero retries, and the original failure propagates
to the caller unchanged: on the detailed convention the 401 response turns
into the usual non-success `RuntimeError("HTTP 401: …")` carrying the raw
body, on the plain convention the raised `httpx.HTTPStatusError`
re-raises as-is; the state is untouched. -/
theorem call_401_without_refresh_propagates (fuel : Nat) (env : SdkEnv) (st : SDKState)
    (op : OpFunc) (args : Args)
    (hno : st.refresh = none ∨ st.auto_refresh = false) :
    (∀ f, op.sync_detailed = some f → (f st.client args 0).status_code = 401 →
      callAt fuel env st op args =
        { result := .error (.runtimeError ("HTTP 401: " ++ (f st.client args 0).content))
          state := st, opInv := 1, directRefresh := 0, refreshTotal := 0, net := 1, res := 0 }) ∧
    (∀ g m, op.sync_detailed = none → op.sync = some g →
      g st.client args 0 = .raiseStatus 401 m →
      callAt fuel env st op args =
        { result := .error (.httpStatusError 401 m)
          state := st, opInv := 1, directRefresh := 0, refreshTotal := 0, net := 1, res := 0 }) := by
  have hcond : ∀ b : Bool, (st.auto_refresh && b && truthy st.refresh) = false := by
    rcases hno with h | h <;> intro b <;> simp [h, truthy]
  have hmk : ∀ rf : SDKState → RefreshOut,
      (∀ f, op.sync_detailed = some f → (f st.client args 0).status_code = 401 →
        mkCall rf st op args =
          { result := .error (.runtimeError ("HTTP 401: " ++ (f st.client args 0).content))
            state := st, opInv := 1, directRefresh := 0, refreshTotal := 0, net := 1, res := 0 }) ∧
      (∀ g m, op.sync_detailed = none → op.sync = some g →
        g st.client args 0 = .raiseStatus 401 m →
        mkCall rf st op args =
          { result := .error (.httpStatusError 401 m)
            state := st, opInv := 1, directRefresh := 0, refreshTotal := 0, net := 1, res := 0 }) := by
    intro rf
    constructor
    · intro f hf h401
      simp only [mkCall, hf, hcond, Bool.false_eq_true, if_false]
      simp only [httpFinish, h401]
      rw [if_neg (by decide : ¬(200 ≤ 401 ∧ 401 < 300))]
      rfl
    · intro g m hd hg hraise
      simp only [mkCall, hd, hg, hraise, hcond, Bool.false_eq_true, if_false]
  cases fuel with
  | zero => exact hmk _
  | succ n => exact hmk _

/-- Fixture operation for the C7 witness: detailed convention, always 401. -/
def opW7 : OpFunc :=
  { sync_detailed := some fun _ _ _ =>
      { status_code := 401, parsed := none, content := "unauthorized" }
    sync := none }

/-- Fixture state for the C7 witness: access token set, no refresh token. -/
def stW7 : SDKState :=
  { access := some "tok", refresh := none, auto_refresh := true
    client := { base_url := "https://api.decentralised.art", token := some "tok"
                verify_ssl := true, timeout := 15 } }

theorem call_401_without_refresh_propagates_witness :
    callAt 1 envEmpty stW7 opW7 [] =
      { result := .error (.runtimeError "HTTP 401: unauthorized")
        state := stW7, opInv := 1, directRefresh := 0, refreshTotal := 0, net := 1, res := 0 } := by
  have h := (call_401_without_refresh_propagates 1 envEmpty stW7 opW7 [] (Or.inl rfl)).1
    (fun _ _ _ => { status_code := 401, parsed := none, content := "unauthorized" }) rfl rfl
  rw [h]
  rfl

/-!  ## C10 — refresh whose response has no extractable access token  -/

/-- Claim C10: when `refresh()` runs with both tokens present and the
refresh response has no extractable access token (under both
attribute-style and mapping-style access the combined accessor yields
`None`), `refresh()` returns the raw response without raising, and the
stored access token, the stored refresh token and the backend handle are
all left unchanged (`set_tokens` with a falsy access and no refresh
argument is a no-op). -/
theorem refresh_no_new_access_noop (fuel : Nat) (env : SdkEnv) (st : SDKState)
    (rResp : Option Resp)
    (hacc : truthy st.access = true) (href : truthy st.refresh = true)
    (hres : env.resolve "dcn_sdk._gen.dcn_api_client.api.auth.post_refresh" =
      .found { sync_detailed := none, sync := some fun _ _ _ => .ok rResp })
    (hnoacc : extract_field rResp (fun d => d.access_token) = none) :
    refreshAt fuel env st =
      { result := .ok rResp, state := st, refreshTotal := 1, net := 1, res := 1 } := by
  rw [refresh_benign fuel env st rResp hacc href hres, hnoacc]
  rfl

/-- Fixture response for the C10 witness: an object-shaped payload carrying
no token fields at all. -/
def rRespW10 : Resp :=
  { shape := .obj, data := { access_token := none, refresh_token := none, nonce := none } }

/-- Fixture environment for the C10 witness. -/
def envW10 : SdkEnv :=
  { resolve := fun c =>
      if c = "dcn_sdk._gen.dcn_api_client.api.auth.post_refresh" then
        .found { sync_detailed := none, sync := some fun _ _ _ => .ok (some rRespW10) }
      else .failed "No module named 'dcn_sdk'"
    sign := fun _ => "" }

/-- Fixture state for the C10 witness. -/
def stW10 : SDKState :=
  { access := some "tokA", refresh := some "tokR", auto_refresh := true
    client := { base_url := "https://api.decentralised.art", token := some "tokA"
                verify_ssl := true, timeout := 15 } }

theorem refresh_no_new_access_noop_witness :
    refreshAt 1 envW10 stW10 =
      { result := .ok (some rRespW10), state := stW10, refreshTotal := 1, net := 1, res := 1 } :=
  refresh_no_new_access_noop 1 envW10 stW10 (some rRespW10) rfl rfl rfl rfl

/-!  ## C8 — a refresh token supplied by the refresh response is ignored  -/

/-- Fixture response for the C8 counterexample: the refresh response
explicitly supplies both a new access token and a new refresh token. -/
def respC8 : Resp :=
  { shape := .map
    data := { access_token := some "A2", refresh_token := some "R2", nonce := none } }

/-- Fixture environment for the C8 counterexample. -/
def envC8 : SdkEnv :=
  { resolve := fun c =>
      if c = "dcn_sdk._gen.dcn_api_client.api.auth.post_refresh" then
        .found { sync_detailed := none, sync := some fun _ _ _ => .ok (some respC8) }
      else .failed "No module named 'dcn_sdk'"
    sign := fun _ => "" }

/-- Fixture state for the C8 counterexample. -/
def stC8 : SDKState :=
  { access := some "A", refresh := some "R", auto_refresh := true
    client := { base_url := "https://api.decentralised.art", token := some "A"
                verify_ssl := true, timeout := 15 } }

/-- Claim C8 counterexample: a successful refresh whose response explicitly
supplies a new refresh token `"R2"` commits the new access token `"A2"`
but leaves the stored refresh token at `"R"` — the supplied refresh token
is not stored, refuting the claim's "in which case that supplied value is
stored". -/
theorem refresh_response_refresh_token_ignored_cex :
    (refreshAt 1 envC8 stC8).result = .ok (some respC8) ∧
    extract_field (some respC8) (fun d => d.refresh_token) = some "R2" ∧
    (refreshAt 1 envC8 stC8).state.access = some "A2" ∧
    (refreshAt 1 envC8 stC8).state.refresh = some "R" :=
  ⟨rfl, rfl, rfl, rfl⟩

/-- Claim C8 (amended): on every successful `refresh()` the new access token
extracted from the response (attribute or mapping access) is committed via
`set_tokens(new_access)` with the refresh argument omitted; the stored
refresh token is left unchanged in all cases — a refresh token supplied by
the refresh response is ignored, never stored. -/
theorem refresh_commits_access_only :
    (∀ (fuel : Nat) (env : SdkEnv) (st : SDKState) (rResp : Option Resp),
      truthy st.access = true → truthy st.refresh = true →
      env.resolve "dcn_sdk._gen.dcn_api_client.api.auth.post_refresh" =
        .found { sync_detailed := none, sync := some fun _ _ _ => .ok rResp } →
      refreshAt fuel env st =
        { result := .ok rResp
          state := set_tokens st (extract_field rResp fun d => d.access_token) none
          refreshTotal := 1, net := 1, res := 1 }) ∧
    (∀ (fuel : Nat) (env : SdkEnv) (st : SDKState),
      (refreshAt fuel env st).state.refresh = st.refresh) :=
  ⟨refresh_benign, refreshAt_state_refresh⟩

theorem refresh_commits_access_only_witness :
    (refreshAt 1 envC8 stC8).state.access = some "A2" ∧
    (refreshAt 1 envC8 stC8).state.refresh = some "R" := by
  have h := refresh_commits_access_only.1 1 envC8 stC8 (some respC8) rfl rfl rfl
  rw [h]
  exact ⟨rfl, rfl⟩

/-!  ## C1 — single refresh-and-retry on 401 (detailed convention)  -/

/-- Claim C1: a dispatched call on the detailed convention whose first
invocation returns status 401, with auto-refresh enabled and a (truthy)
refresh token present, performs exactly one `refresh()` and exactly one
re-invocation with identical arguments — two invocations of the dispatched
operation in total, and a dispatch frame can never exceed two invocations
or one refresh — and when the retry returns a success status (200–299) the
caller observes exactly the final parsed payload.  The retry is issued
against the post-refresh backend handle.  (The refresh endpoint is assumed
well-behaved here; if `refresh()` itself raises, its failure propagates and
no retry occurs, per the spec's propagation policy.) -/
theorem call_retry_after_401_once (fuel : Nat) (env : SdkEnv) (st : SDKState)
    (op : OpFunc) (f : GenClient → Args → Nat → DetailedResp) (args : Args)
    (rResp : Option Resp)
    (hdet : op.sync_detailed = some f)
    (hauto : st.auto_refresh = true)
    (hacc : truthy st.access = true)
    (href : truthy st.refresh = true)
    (h401 : (f st.client args 0).status_code = 401)
    (hres : env.resolve "dcn_sdk._gen.dcn_api_client.api.auth.post_refresh" =
      .found { sync_detailed := none, sync := some fun _ _ _ => .ok rResp }) :
    (callAt (fuel + 1) env st op args =
      { result := httpFinish (f (refreshAt fuel env st).state.client args 1)
        state := (refreshAt fuel env st).state
        opInv := 2, directRefresh := 1, refreshTotal := 1, net := 3, res := 1 }) ∧
    (200 ≤ (f (refreshAt fuel env st).state.client args 1).status_code →
      (f (refreshAt fuel env st).state.client args 1).status_code < 300 →
      (callAt (fuel + 1) env st op args).result =
        .ok (f (refreshAt fuel env st).state.client args 1).parsed) ∧
    (∀ (rf : SDKState → RefreshOut) (st' : SDKState) (op' : OpFunc) (args' : Args),
      (mkCall rf st' op' args').opInv ≤ 2 ∧ (mkCall rf st' op' args').directRefresh ≤ 1) := by
  have hR := refresh_benign fuel env st rResp hacc href hres
  have h1 : callAt (fuel + 1) env st op args =
      { result := httpFinish (f (refreshAt fuel env st).state.client args 1)
        state := (refreshAt fuel env st).state
        opInv := 2, directRefresh := 1, refreshTotal := 1, net := 3, res := 1 } := by
    rw [callAt_succ]
    simp only [mkCall, hdet, hauto, h401, href, beq_self_eq_true, Bool.and_self,
      Bool.true_and, Bool.and_true, if_true]
    rw [hR]
    simp
  refine ⟨h1, ?_, fun rf st' op' args' => mkCall_bounds rf st' op' args'⟩
  intro hlo hhi
  rw [h1]
  simp only [httpFinish]
  rw [if_pos ⟨hlo, hhi⟩]

/-- Fixture payload observed by the caller in the C1 witness. -/
def respOkW1 : Resp :=
  { shape := .obj, data := { access_token := none, refresh_token := none, nonce := none } }

/-- Fixture refresh response for the C1 witness: supplies access token `"xyz"`. -/
def rRespW1 : Resp :=
  { shape := .map, data := { access_token := some "xyz", refresh_token := none, nonce := none } }

/-- Fixture detailed behaviour for the C1 witness: 401 on the first
invocation, 200 with a parsed payload on the retry. -/
def fW1 : GenClient → Args → Nat → DetailedResp := fun _ _ idx =>
  if idx == 0 then { status_code := 401, parsed := none, content := "expired" }
  else { status_code := 200, parsed := some respOkW1, content := "" }

/-- Fixture operation for the C1 witness. -/
def opW1 : OpFunc := { sync_detailed := some fW1, sync := none }

/-- Fixture environment for the C1 witness. -/
def envW1 : SdkEnv :=
  { resolve := fun c =>
      if c = "dcn_sdk._gen.dcn_api_client.api.auth.post_refresh" then
        .found { sync_detailed := none, sync := some fun _ _ _ => .ok (some rRespW1) }
      else .failed "No module named 'dcn_sdk'"
    sign := fun _ => "" }

/-- Fixture state for the C1 witness. -/
def stW1 : SDKState :=
  { access := some "old", refresh := some "rftok", auto_refresh := true
    client := { base_url := "https://api.decentralised.art", token := some "old"
                verify_ssl := true, timeout := 15 } }

theorem call_retry_after_401_once_witness :
    (callAt 1 envW1 stW1 opW1 []).result = .ok (some respOkW1) ∧
    (callAt 1 envW1 stW1 opW1 []).opInv = 2 ∧
    (callAt 1 envW1 stW1 opW1 []).directRefresh = 1 ∧
    (callAt 1 envW1 stW1 opW1 []).refreshTotal = 1 ∧
    (callAt 1 envW1 stW1 opW1 []).state.access = some "xyz" := by
  have h := (call_retry_after_401_once 0 envW1 stW1 opW1 fW1 [] (some rRespW1)
    rfl rfl rfl rfl rfl rfl).1
  rw [h]
  exact ⟨rfl, rfl, rfl, rfl, rfl⟩

/-!  ## C3 — login response without extractable tokens  -/

/-- Fixture nonce response for C3: a dict carrying nonce `"hello"`. -/
def nonceRespC3 : Resp :=
  { shape := .map, data := { access_token := none, refresh_token := none, nonce := some "hello" } }

/-- Fixture auth response for C3: a dict carrying neither an access token
nor a refresh token. -/
def tokenlessRespC3 : Resp :=
  { shape := .map, data := { access_token := none, refresh_token := none, nonce := none } }

/-- Fixture environment for C3. -/
def envC3 : SdkEnv :=
  { resolve := fun c =>
      if c = "dcn_sdk._gen.dcn_api_client.api.auth.get_nonce" then
        .found { sync_detailed := none, sync := some fun _ _ _ => .ok (some nonceRespC3) }
      else if c = "dcn_sdk._gen.dcn_api_client.api.auth.post_auth" then
        .found { sync_detailed := none, sync := some fun _ _ _ => .ok (some tokenlessRespC3) }
      else .failed "No module named 'dcn_sdk'"
    sign := fun _ => "sig-hex" }

/-- Fixture state for C3. -/
def stC3 : SDKState :=
  { access := none, refresh := none, auto_refresh := true, client := clientD }

/-- Claim C3 counterexample: with a login response from which neither an
access token nor a refresh token can be extracted, `login_with_account`
returns the raw response normally — no `ProtocolError` (indeed no error at
all) is raised — refuting the claim that the signed login flow fails in
that situation. -/
theorem login_tokenless_returns_normally_cex :
    (login_with_account 1 envC3 stC3 "0xabc").result = .ok (some tokenlessRespC3) ∧
    (login_with_account 1 envC3 stC3 "0xabc").state = stC3 :=
  ⟨rfl, rfl⟩

/-- Claim C3 (amended): for every login response from which neither an
access token nor a refresh token can be extracted (under both
attribute-style and mapping-style access), `login_with_account` does not
fail: it returns the raw auth response normally and leaves the token state
(and backend handle) unchanged, since `set_tokens(None, None)` is a no-op. -/
theorem login_tokenless_returns_normally (fuel : Nat) (env : SdkEnv) (st : SDKState)
    (address : String) (nResp aResp : Option Resp)
    (hn : env.resolve "dcn_sdk._gen.dcn_api_client.api.auth.get_nonce" =
      .found { sync_detailed := none, sync := some fun _ _ _ => .ok nResp })
    (ha : env.resolve "dcn_sdk._gen.dcn_api_client.api.auth.post_auth" =
      .found { sync_detailed := none, sync := some fun _ _ _ => .ok aResp })
    (hnonce : truthy (extract_field nResp fun d => d.nonce) = true)
    (haccx : extract_field aResp (fun d => d.access_token) = none)
    (hrefx : extract_field aResp (fun d => d.refresh_token) = none) :
    login_with_account fuel env st address =
      { result := .ok aResp, state := st, refreshTotal := 0, net := 2, res := 2 } := by
  have hN : get_nonce fuel env st address =
      { result := .ok nResp, state := st, refreshTotal := 0, net := 1, res := 1 } := by
    unfold get_nonce nonceCandidates
    exact dispatch_plain_ok fuel env st _ _ nResp _ hn
  have hA : ∀ args, dispatch fuel env st authCandidates args =
      { result := .ok aResp, state := st, refreshTotal := 0, net := 1, res := 1 } := by
    intro args
    unfold authCandidates
    exact dispatch_plain_ok fuel env st _ _ aResp _ ha
  simp only [login_with_account, hN, hnonce, hA, haccx, hrefx]
  simp [set_tokens, truthy]

theorem login_tokenless_returns_normally_witness :
    login_with_account 2 envC3 stC3 "0xdef" =
      { result := .ok (some tokenlessRespC3), state := stC3, refreshTotal := 0, net := 2, res := 2 } :=
  login_tokenless_returns_normally 2 envC3 stC3 "0xdef" (some nonceRespC3)
    (some tokenlessRespC3) rfl rfl rfl rfl rfl
